import Mathlib

/-!
Shallow embedding of `django-tracking2`'s `tracking/models.py`.

Datetimes are modelled as `Int` epoch seconds and `timedelta(seconds=s)` as
the integer `s`.  Nullable model fields become `Option`; Python attribute
memoization (`hasattr`/setattr on the instance) becomes explicit state that
is threaded through each property call.  The external GeoIP provider is an
oracle function whose result distinguishes a successful lookup, the
provider-specific `GeoIPException`, and any other exception.
-/

namespace Tracking

/-- A `Visitor` row, mirroring the model fields of `tracking/models.py`.
Nullable columns (`null=True`) are `Option`. -/
structure Visitor where
  session_key : String
  user : Option Nat
  ip_address : String
  user_agent : Option String
  start_time : Int
  expiry_age : Option Int
  expiry_time : Option Int
  time_on_site : Option Int
  end_time : Option Int
deriving Repr, DecidableEq

/-- A `Pageview` row: `visitor` holds the owning Visitor's `session_key`. -/
structure Pageview where
  visitor : String
  url : String
  method : Option String
  view_time : Int
deriving Repr, DecidableEq

/-- `Visitor.session_expired`: `if self.expiry_time: return self.expiry_time
<= timezone.now()` then `return False`.  A `datetime` is always truthy in
Python, so the guard tests presence.  The current time is an explicit
argument; the function is pure (no side effects). -/
def Visitor.session_expired (v : Visitor) (now : Int) : Bool :=
  match v.expiry_time with
  | some t => decide (t ≤ now)
  | none => false

/-- `Visitor.session_ended`: `return bool(self.end_time)`.  A `datetime` is
always truthy, so this is presence of `end_time`.  Pure. -/
def Visitor.session_ended (v : Visitor) : Bool :=
  v.end_time.isSome

/-- `Visitor.last_time`: `self.start_time + timedelta(seconds=self.time_on_site)`.
When `time_on_site` is `None`, `timedelta(seconds=None)` raises `TypeError`,
modelled as `Except.error ()`. -/
def Visitor.last_time (v : Visitor) : Except Unit Int :=
  match v.time_on_site with
  | some s => Except.ok (v.start_time + s)
  | none => Except.error ()

/-- `GEOIP_CACHE_TYPE = getattr(settings, 'GEOIP_CACHE_TYPE', 4)`: the host
settings value when present, else the default 4. -/
def GEOIP_CACHE_TYPE (settingsVal : Option Int) : Int :=
  settingsVal.getD 4

/-- Outcome of one call to `gip.city(ip)` by the provider: a returned value,
the provider-specific `GeoIPException` (caught by `geoip_data`), or any
other exception (not caught, propagates). -/
inductive LookupResult (α : Type) where
  | ok : Option α → LookupResult α
  | geoipException : LookupResult α
  | otherError : LookupResult α
deriving Repr, DecidableEq

/-- Everything observable about one evaluation of the `geoip_data` property:
the value produced (`Except.error ()` = an uncaught exception propagated to
the caller), the `_geoip_data` memo attribute afterwards (`none` = attribute
absent), how many provider lookups ran, whether `log.error` fired, and the
`cache=` argument handed to the `GeoIP` reader if one was constructed. -/
structure GeoipOutcome (α : Type) where
  result : Except Unit (Option α)
  memo : Option (Option α)
  providerCalls : Nat
  logged : Bool
  cacheUsed : Option Int
deriving Repr

/-- `Visitor.geoip_data`.  `city cache ip` is the provider oracle
(`GeoIP(cache=...)` construction followed by `.city(ip)`; an exception from
either step is one `LookupResult`).  `memo0` is the `_geoip_data` attribute
before the call (`none` when `hasattr` is false).  Mirrors the source: an
early `return` when GeoIP is unavailable or disabled; otherwise
`self._geoip_data = None` is assigned *before* the `try`, the lookup result
overwrites it on success, `GeoIPException` is logged and swallowed, and any
other exception leaves the `None` memo in place and propagates. -/
def Visitor.geoip_data (HAS_GEOIP TRACK_USING_GEOIP : Bool) (cacheType : Int)
    (city : Int → String → LookupResult α) (v : Visitor)
    (memo0 : Option (Option α)) : GeoipOutcome α :=
  if !HAS_GEOIP || !TRACK_USING_GEOIP then
    { result := Except.ok none, memo := memo0, providerCalls := 0,
      logged := false, cacheUsed := none }
  else
    match memo0 with
    | some d =>
      { result := Except.ok d, memo := some d, providerCalls := 0,
        logged := false, cacheUsed := none }
    | none =>
      match city cacheType v.ip_address with
      | LookupResult.ok d =>
        { result := Except.ok d, memo := some d, providerCalls := 1,
          logged := false, cacheUsed := some cacheType }
      | LookupResult.geoipException =>
        { result := Except.ok none, memo := some none, providerCalls := 1,
          logged := true, cacheUsed := some cacheType }
      | LookupResult.otherError =>
        { result := Except.error (), memo := some none, providerCalls := 1,
          logged := false, cacheUsed := some cacheType }

/-- The `browser` component of a parsed user agent (`python-user-agents`):
a family name and a version tuple; `version[0]` is the major version. -/
structure Browser where
  family : String
  version : List Nat
deriving Repr, DecidableEq

/-- The `os` component of a parsed user agent. -/
structure OperatingSystem where
  family : String
  version_string : String
deriving Repr, DecidableEq

/-- The `device` component of a parsed user agent. -/
structure Device where
  family : String
deriving Repr, DecidableEq

/-- The result of `user_agents.parse(...)`. -/
structure ParsedAgent where
  browser : Browser
  os : OperatingSystem
  device : Device
deriving Repr, DecidableEq

/-- Everything observable about one evaluation of the `platform` property:
the value produced (`Except.error ()` = an exception from the parse branch,
e.g. `IndexError` on an empty version tuple, propagated), the
`_platform_string` memo attribute afterwards, and how many parses ran. -/
structure PlatformOutcome where
  result : Except Unit (Option String)
  memo : Option String
  parses : Nat
deriving Repr

/-- `Visitor.platform`.  `user_agents_loaded` models the module-level
`user_agents` binding: `False` when the import failed or `TRACK_PARSE_AGENT`
is off (the source initializes `user_agents = None` and imports it only when
`TRACK_PARSE_AGENT` is set).  `parse` is the library oracle; `memo0` is the
`_platform_string` attribute before the call.  Mirrors the source: with no
parser, return `self.user_agent` verbatim; otherwise parse once, build
`"%s %d %s %s "` from browser family, `version[0]`, os family and os version
string, and append `device.family` directly iff it is non-empty (Python
string truthiness). -/
def Visitor.platform (user_agents_loaded : Bool)
    (parse : Option String → ParsedAgent) (v : Visitor)
    (memo0 : Option String) : PlatformOutcome :=
  if !user_agents_loaded then
    { result := Except.ok v.user_agent, memo := memo0, parses := 0 }
  else
    match memo0 with
    | some s => { result := Except.ok (some s), memo := some s, parses := 0 }
    | none =>
      let p := parse v.user_agent
      match p.browser.version with
      | [] => { result := Except.error (), memo := none, parses := 1 }
      | m :: _ =>
        let base := p.browser.family ++ " " ++ toString m ++ " " ++
          p.os.family ++ " " ++ p.os.version_string ++ " "
        let s := if p.device.family == "" then base else base ++ p.device.family
        { result := Except.ok (some s), memo := some s, parses := 1 }

/-- `Visitor.Meta.ordering = ('-start_time',)`. -/
def Visitor.Meta.ordering : List String := ["-start_time"]

/-- `Pageview.Meta.ordering = ('-view_time',)`. -/
def Pageview.Meta.ordering : List String := ["-view_time"]

/-- A Django ordering directive orders descending iff it starts with a
minus sign (Django tests `field.startswith('-')`); modelled on the
character list so it evaluates in the kernel. -/
def directive_desc (d : String) : Bool :=
  match d.data with
  | [] => false
  | c :: _ => c == '-'

/-- The field a Django ordering directive names (the directive with a
leading minus sign stripped, Django's `field[1:]`). -/
def directive_field (d : String) : String :=
  if directive_desc d then String.mk (d.data.drop 1) else d

/-- Sorting a result set by one timestamp key, descending when the
directive says so (Django's interpretation of a single-field ordering). -/
def applyOrdering (key : α → Int) (desc : Bool) (rows : List α) : List α :=
  rows.mergeSort (fun a b =>
    if desc then decide (key b ≤ key a) else decide (key a ≤ key b))

/-- The default Visitor result set: rows sorted per `Visitor.Meta.ordering`. -/
def visitorDefaultQueryset (rows : List Visitor) : List Visitor :=
  applyOrdering Visitor.start_time
    (directive_desc (Visitor.Meta.ordering.headD "")) rows

/-- The default Pageview result set: rows sorted per `Pageview.Meta.ordering`. -/
def pageviewDefaultQueryset (rows : List Pageview) : List Pageview :=
  applyOrdering Pageview.view_time
    (directive_desc (Pageview.Meta.ordering.headD "")) rows

/-- A concrete Visitor used by witnesses: optional fields unset. -/
def vOpen : Visitor :=
  { session_key := "abc", user := none, ip_address := "1.2.3.4",
    user_agent := some "Mozilla/5.0", start_time := 100,
    expiry_age := none, expiry_time := none, time_on_site := none,
    end_time := none }

/-- `vOpen` with 30 accumulated seconds on site. -/
def vTimed : Visitor := { vOpen with time_on_site := some 30 }

/-- Provider oracle that succeeds with a value. -/
def cityOk : Int → String → LookupResult Nat :=
  fun _ _ => LookupResult.ok (some 5)

/-- Provider oracle that raises `GeoIPException` on every lookup. -/
def cityGeoErr : Int → String → LookupResult Nat :=
  fun _ _ => LookupResult.geoipException

/-- Provider oracle that raises a non-`GeoIPException` error on every lookup. -/
def cityBoom : Int → String → LookupResult Nat :=
  fun _ _ => LookupResult.otherError

/-- Agent-parse oracle: Chrome 70 on Windows 10, no device family. -/
def parseChrome : Option String → ParsedAgent :=
  fun _ => ⟨⟨"Chrome", [70]⟩, ⟨"Windows", "10"⟩, ⟨""⟩⟩

/-- Agent-parse oracle: Chrome 70 on Windows 10, device family iPhone. -/
def parseChromeiPhone : Option String → ParsedAgent :=
  fun _ => ⟨⟨"Chrome", [70]⟩, ⟨"Windows", "10"⟩, ⟨"iPhone"⟩⟩

end Tracking

namespace Tracking

/-- Helper: sorting descending by an integer key yields a most-recent-first
ordering (each element is at or after every later one) and a permutation of
the input rows. -/
theorem applyOrdering_desc (key : α → Int) (rows : List α) :
    (applyOrdering key true rows).Pairwise (fun a b => key b ≤ key a) ∧
    List.Perm (applyOrdering key true rows) rows := by
  constructor
  · refine List.Pairwise.imp ?_ (List.sorted_mergeSort ?_ ?_ rows)
    · intro a b h
      simpa using h
    · intro a b c hab hbc
      simp only [if_true] at hab hbc ⊢
      simp only [decide_eq_true_eq] at hab hbc ⊢
      omega
    · intro a b
      simp only [if_true, Bool.or_eq_true, decide_eq_true_eq]
      omega
  · exact List.mergeSort_perm rows _

/-- C3: `session_expired()` returns true iff `expiry_time` is set and is at
or before the evaluation time, and returns false whenever `expiry_time` is
unset.  The embedding is a pure function of the row and the clock, so the
call has no side effects. -/
theorem C3_session_expired_iff (v : Visitor) (now : Int) :
    (v.session_expired now = true ↔
      ∃ t, v.expiry_time = some t ∧ t ≤ now) ∧
    (v.expiry_time = none → v.session_expired now = false) := by
  unfold Visitor.session_expired
  cases he : v.expiry_time with
  | none => simp
  | some t => simp

/-- Witness for C3 at a concrete Visitor with `expiry_time` unset. -/
theorem C3_session_expired_iff_witness :
    Visitor.session_expired vOpen 100 = false :=
  (C3_session_expired_iff vOpen 100).2 rfl

/-- C7: `session_ended()` is exactly "`end_time` is set", it is pure (a
function of the row alone), and it is independent of `session_expired()`:
every combination of the two predicates is realised by some row and
evaluation time. -/
theorem C7_session_ended_spec :
    (∀ v : Visitor, v.session_ended = v.end_time.isSome) ∧
    (∀ b1 b2 : Bool, ∃ (v : Visitor) (now : Int),
      v.session_ended = b1 ∧ v.session_expired now = b2) := by
  refine ⟨fun v => rfl, fun b1 b2 => ?_⟩
  refine ⟨{ session_key := "k", user := none, ip_address := "ip",
            user_agent := none, start_time := 0, expiry_age := none,
            expiry_time := if b2 then some 0 else none,
            time_on_site := none,
            end_time := if b1 then some 0 else none }, 0, ?_, ?_⟩
  · cases b1 <;> simp [Visitor.session_ended]
  · cases b2 <;> simp [Visitor.session_expired]

/-- C2: with `time_on_site = S` set, `last_time` is `start_time + S`
seconds; with `time_on_site` unset, `last_time` raises (models Python's
`TypeError` from `timedelta(seconds=None)`) instead of returning an absent
value. -/
theorem C2_last_time_spec :
    (∀ (v : Visitor) (s : Int), v.time_on_site = some s →
      v.last_time = Except.ok (v.start_time + s)) ∧
    (∀ v : Visitor, v.time_on_site = none →
      v.last_time = Except.error ()) := by
  constructor
  · intro v s h
    unfold Visitor.last_time
    rw [h]
  · intro v h
    unfold Visitor.last_time
    rw [h]

/-- Witness for C2 at concrete Visitors with `time_on_site` set and unset. -/
theorem C2_last_time_spec_witness :
    vTimed.last_time = Except.ok (vTimed.start_time + 30) ∧
    vOpen.last_time = Except.error () :=
  ⟨C2_last_time_spec.1 vTimed 30 rfl, C2_last_time_spec.2 vOpen rfl⟩

/-- C5: with the user-agent parser not loaded (dependency absent or
`TRACK_PARSE_AGENT` off), `platform` returns the stored `user_agent`
verbatim — including when it is absent or empty — performs no parse, and
leaves the memo untouched. -/
theorem C5_platform_fallback (parse : Option String → ParsedAgent)
    (v : Visitor) (memo0 : Option String) :
    Visitor.platform false parse v memo0 =
      { result := Except.ok v.user_agent, memo := memo0, parses := 0 } :=
  rfl

/-- C4: with the parser loaded and a parse yielding browser family `bf`,
version list headed by `m`, OS family `osf`, OS version string `osv` and
device family `df`, the `platform` property yields
`"bf m osf osv "` with a single trailing space, with `df` appended directly
(no separator) exactly when a device family was identified (non-empty). -/
theorem C4_platform_format (parse : Option String → ParsedAgent)
    (v : Visitor) (bf osf osv df : String) (m : Nat) (mr : List Nat)
    (hp : parse v.user_agent = ⟨⟨bf, m :: mr⟩, ⟨osf, osv⟩, ⟨df⟩⟩) :
    (Visitor.platform true parse v none).result =
      Except.ok (some (if df = "" then
        bf ++ " " ++ toString m ++ " " ++ osf ++ " " ++ osv ++ " "
      else
        bf ++ " " ++ toString m ++ " " ++ osf ++ " " ++ osv ++ " " ++ df)) := by
  simp [Visitor.platform, hp]

/-- Witness for C4: Chrome 70 / Windows 10 with empty device family gives
`"Chrome 70 Windows 10 "`; with device family iPhone gives
`"Chrome 70 Windows 10 iPhone"`. -/
theorem C4_platform_format_witness :
    (Visitor.platform true parseChrome vOpen none).result =
      Except.ok (some "Chrome 70 Windows 10 ") ∧
    (Visitor.platform true parseChromeiPhone vOpen none).result =
      Except.ok (some "Chrome 70 Windows 10 iPhone") := by
  constructor
  · rw [C4_platform_format parseChrome vOpen "Chrome" "Windows" "10" ""
      70 [] rfl]
    rfl
  · rw [C4_platform_format parseChromeiPhone vOpen "Chrome" "Windows" "10"
      "iPhone" 70 [] rfl]
    rfl

/-- C6: with the GeoIP capability unavailable (`HAS_GEOIP` false) or the
feature disabled (`TRACK_USING_GEOIP` false), `geoip_data` returns an
absent value immediately: no provider lookup runs, no reader is
constructed, nothing is logged and the memo is untouched. -/
theorem C6_geoip_disabled {α : Type} (hg tg : Bool)
    (h : hg = false ∨ tg = false) (cacheType : Int)
    (city : Int → String → LookupResult α) (v : Visitor)
    (memo0 : Option (Option α)) :
    Visitor.geoip_data hg tg cacheType city v memo0 =
      { result := Except.ok none, memo := memo0, providerCalls := 0,
        logged := false, cacheUsed := none } := by
  rcases h with h | h <;> subst h <;> simp [Visitor.geoip_data]

/-- Witness for C6 at a concrete disabled configuration. -/
theorem C6_geoip_disabled_witness :
    Visitor.geoip_data false true 4 cityOk vOpen none =
      { result := Except.ok none, memo := none, providerCalls := 0,
        logged := false, cacheUsed := none } :=
  C6_geoip_disabled false true (Or.inl rfl) 4 cityOk vOpen none

/-- C1: with GeoIP available and enabled and the provider not raising a
foreign (non-`GeoIPException`) error, the first access performs exactly one
lookup; the second access — fed the memo the first one left — performs
none, returns the first access's result and leaves the memo unchanged; a
provider-specific `GeoIPException` is logged and turned into an absent
result rather than propagated; and from any memoized state, an access
returns the memoized value with no lookup, so the object performs at most
one lookup over its lifetime. -/
theorem C1_geoip_memoized {α : Type} (cacheType : Int)
    (city : Int → String → LookupResult α) (v : Visitor)
    (hne : city cacheType v.ip_address ≠ LookupResult.otherError) :
    (Visitor.geoip_data true true cacheType city v none).providerCalls = 1 ∧
    Visitor.geoip_data true true cacheType city v
        (Visitor.geoip_data true true cacheType city v none).memo =
      { result := (Visitor.geoip_data true true cacheType city v none).result,
        memo := (Visitor.geoip_data true true cacheType city v none).memo,
        providerCalls := 0, logged := false, cacheUsed := none } ∧
    (city cacheType v.ip_address = LookupResult.geoipException →
      (Visitor.geoip_data true true cacheType city v none).logged = true ∧
      (Visitor.geoip_data true true cacheType city v none).result =
        Except.ok none) ∧
    (∀ d : Option α,
      Visitor.geoip_data true true cacheType city v (some d) =
        { result := Except.ok d, memo := some d, providerCalls := 0,
          logged := false, cacheUsed := none }) := by
  cases hc : city cacheType v.ip_address with
  | ok d => simp [Visitor.geoip_data, hc]
  | geoipException => simp [Visitor.geoip_data, hc]
  | otherError => exact absurd hc hne

/-- Witness for C1 with a provider that raises `GeoIPException`: one lookup
on first access, none on the second, and the error was logged. -/
theorem C1_geoip_memoized_witness :
    (Visitor.geoip_data true true 4 cityGeoErr vOpen none).providerCalls
        = 1 ∧
    (Visitor.geoip_data true true 4 cityGeoErr vOpen
        (Visitor.geoip_data true true 4 cityGeoErr vOpen
          none).memo).providerCalls = 0 ∧
    (Visitor.geoip_data true true 4 cityGeoErr vOpen none).logged = true ∧
    (Visitor.geoip_data true true 4 cityGeoErr vOpen none).result =
      Except.ok none := by
  have h := C1_geoip_memoized 4 cityGeoErr vOpen (by decide)
  exact ⟨h.1, by rw [h.2.1], (h.2.2.1 rfl).1, (h.2.2.1 rfl).2⟩

/-- C10: the absent memo is recorded before the lookup runs, so when the
provider raises an error outside the caught class, the first access
propagates the error but still leaves `_geoip_data = None`; a subsequent
access then returns the absent value with no further lookup. -/
theorem C10_geoip_error_memo {α : Type} (cacheType : Int)
    (city : Int → String → LookupResult α) (v : Visitor)
    (hc : city cacheType v.ip_address = LookupResult.otherError) :
    Visitor.geoip_data true true cacheType city v none =
      { result := Except.error (), memo := some none, providerCalls := 1,
        logged := false, cacheUsed := some cacheType } ∧
    Visitor.geoip_data true true cacheType city v (some none) =
      { result := Except.ok none, memo := some none, providerCalls := 0,
        logged := false, cacheUsed := none } := by
  constructor <;> simp [Visitor.geoip_data, hc]

/-- Witness for C10 with a provider raising a non-`GeoIPException` error. -/
theorem C10_geoip_error_memo_witness :
    Visitor.geoip_data true true 4 cityBoom vOpen none =
      { result := Except.error (), memo := some none, providerCalls := 1,
        logged := false, cacheUsed := some 4 } ∧
    Visitor.geoip_data true true 4 cityBoom vOpen (some none) =
      { result := Except.ok none, memo := some none, providerCalls := 0,
        logged := false, cacheUsed := none } :=
  C10_geoip_error_memo 4 cityBoom vOpen rfl

/-- C9: the GeoIP cache-mode option defaults to 4 when the host settings do
not supply it, equals the configured value when they do, and whichever
value is in force is handed unchanged as the `cache=` argument of the GeoIP
reader on every lookup that runs. -/
theorem C9_cache_type_spec :
    GEOIP_CACHE_TYPE none = 4 ∧
    (∀ n : Int, GEOIP_CACHE_TYPE (some n) = n) ∧
    (∀ (α : Type) (s : Option Int)
        (city : Int → String → LookupResult α) (v : Visitor),
      (Visitor.geoip_data true true (GEOIP_CACHE_TYPE s) city v
          none).providerCalls = 1 ∧
      (Visitor.geoip_data true true (GEOIP_CACHE_TYPE s) city v
          none).cacheUsed = some (GEOIP_CACHE_TYPE s)) := by
  refine ⟨rfl, fun n => rfl, fun α s city v => ?_⟩
  cases hc : city (GEOIP_CACHE_TYPE s) v.ip_address <;>
    simp [Visitor.geoip_data, hc]

/-- C8: the declared default ordering of Visitor is the single descending
directive on `start_time` and of Pageview the single descending directive
on `view_time`; applying these default orderings to any result set returns
a permutation of the rows arranged most-recent-first by that timestamp.
(A caller override replaces the `ordering` directives and is outside the
model.) -/
theorem C8_default_ordering :
    Visitor.Meta.ordering = ["-start_time"] ∧
    directive_desc "-start_time" = true ∧
    directive_field "-start_time" = "start_time" ∧
    Pageview.Meta.ordering = ["-view_time"] ∧
    directive_desc "-view_time" = true ∧
    directive_field "-view_time" = "view_time" ∧
    (∀ rows : List Visitor,
      (visitorDefaultQueryset rows).Pairwise
        (fun a b => b.start_time ≤ a.start_time) ∧
      List.Perm (visitorDefaultQueryset rows) rows) ∧
    (∀ rows : List Pageview,
      (pageviewDefaultQueryset rows).Pairwise
        (fun a b => b.view_time ≤ a.view_time) ∧
      List.Perm (pageviewDefaultQueryset rows) rows) := by
  refine ⟨rfl, by decide, by decide, rfl, by decide, by decide,
    fun rows => ?_, fun rows => ?_⟩
  · have h : visitorDefaultQueryset rows =
        applyOrdering Visitor.start_time true rows := by
      unfold visitorDefaultQueryset
      rw [show directive_desc (Visitor.Meta.ordering.headD "") = true by
        decide]
    rw [h]
    exact applyOrdering_desc Visitor.start_time rows
  · have h : pageviewDefaultQueryset rows =
        applyOrdering Pageview.view_time true rows := by
      unfold pageviewDefaultQueryset
      rw [show directive_desc (Pageview.Meta.ordering.headD "") = true by
        decide]
    rw [h]
    exact applyOrdering_desc Pageview.view_time rows

end Tracking
